import Mathlib

/-!
Verification of the Plontis Central API request handlers (`handler.py`).

The handlers are shallowly embedded: a database is a pair of row lists
(`detections`, `api_registrations`), SQL statements become Lean functions on
those lists, and the transient failure points of the runtime (connection
acquisition, individual cursor operations) are Boolean oracles collected in
`Env`.  Timestamps are integers (seconds); SQL `DATE_SUB(NOW(), INTERVAL n
DAY)` becomes `now - n * 86400`.  MySQL `DECIMAL`/Python float values are
modelled as rationals.
-/

/-- One row of the `detections` table.  `site_hash` and `company` are nullable
columns (`Option`); an empty string is distinct from NULL, as in MySQL. -/
structure DetectionRow where
  site_hash : Option String
  site_category : String
  site_region : String
  company : Option String
  bot_type : String
  content_type : String
  content_quality : Int
  estimated_value : ℚ
  risk_level : String
  commercial_risk : Bool
  detected_at : Int
  created_at : Int
  deriving DecidableEq

/-- One row of the `api_registrations` table.  The uniqueness key is
`api_key`. -/
structure RegistrationRow where
  api_key : String
  site_hash : String
  site_url_hash : String
  wordpress_version : String
  plugin_version : String
  registered_at : Int
  last_seen : Int
  deriving DecidableEq

/-- The database state seen by one request. -/
structure DB where
  detections : List DetectionRow
  registrations : List RegistrationRow
  deriving DecidableEq

/-- The market-intelligence statistics payload built by
`get_market_intelligence` (the `last_updated` timestamp is omitted: it is
`datetime.now()` and carries no logic). -/
structure Stats where
  total_sites : Nat
  total_detections : Nat
  average_value_per_detection : ℚ
  most_active_company : String
  status : String
  deriving DecidableEq

/-- One entry of the per-company breakdown built by `get_site_insights`. -/
structure CompanyAgg where
  company : Option String
  detections : Nat
  avg_value : ℚ
  total_value : ℚ
  deriving DecidableEq

/-- The JSON bodies produced by the handlers.  `errorBody msg details` is
`{'error': msg}` plus the optional `'details'` field emitted by the top-level
exception handler; `detectionBody` is `{'success': ..., 'detection_id': ...}`. -/
inductive RespBody where
  | statsBody : Stats → RespBody
  | errorBody : String → Option String → RespBody
  | detectionBody : Bool → Option Nat → RespBody
  | insightsBody : String → List CompanyAgg → RespBody
  | registerBody : Bool → Bool → RespBody
  deriving DecidableEq

/-- A response envelope: status code plus JSON body (the constant
`Content-Type`/CORS headers carry no logic and are omitted). -/
structure HttpResponse where
  statusCode : Nat
  body : RespBody
  deriving DecidableEq

/-- A parsed detection report body (`json.loads` result).  Each key of the
JSON object is present iff the field is `some`. -/
structure DetectionData where
  site_hash : Option String
  company : Option String
  content_type : Option String
  estimated_value : Option ℚ
  detected_at : Option Int
  site_category : Option String
  site_region : Option String
  bot_type : Option String
  content_quality : Option Int
  risk_level : Option String
  commercial_risk : Option Bool
  deriving DecidableEq

/-- A parsed registration body.  `api_key` and `site_hash` are accessed with
`data[...]` in the source (mandatory); the rest use `data.get(...)`. -/
structure RegData where
  api_key : String
  site_hash : String
  site_url_hash : Option String
  wordpress_version : Option String
  plugin_version : Option String
  registered_at : Option Int
  deriving DecidableEq

/-- One registration call: the parsed body plus the value of `NOW()` during
that call. -/
structure RegCall where
  data : RegData
  now : Int
  deriving DecidableEq

/-- Transient-failure oracles for one request.  Each Boolean says whether the
corresponding runtime step succeeds; `now` is the clock. -/
structure Env where
  dbReachable : Bool
  tableExists : Bool
  opOk : Bool
  insertOk : Bool
  fixConnOk : Bool
  fixOk : Bool
  reconnectOk : Bool
  now : Int
  deriving DecidableEq

/-- Model of `get_db_connection`: besides connecting, the function runs probe
queries `SELECT COUNT(*) FROM detections ...` inside its `try` block, so a
missing `detections` table makes the probe raise and the function return
`None`.  Acquisition therefore succeeds iff the server is reachable AND the
`detections` table exists. -/
def get_db_connection (reachable tableExists : Bool) : Bool :=
  reachable && tableExists

/-- Model of `validate_api_key`: reject falsy (empty) keys and keys shorter
than 10 characters. -/
def validate_api_key (api_key : String) : Bool :=
  !(api_key == "" || api_key.length < 10)

/-- Model of `headers.get(name, '')` on the request headers dict. -/
def headerGet (headers : List (String × String)) (name : String) : String :=
  match headers.find? (fun p => p.1 == name) with
  | some p => p.2
  | none => ""

/-- The MySQL predicate `site_hash IS NOT NULL AND site_hash != ''`. -/
def validHash : Option String → Bool
  | none => false
  | some s => !(s == "")

/-- The well-known fallback hash assigned by `fix_site_hash_in_lambda`. -/
def correct_site_hash : String :=
  "f51bc27669e6f0c9cd71fe4dae0c03f44d461738e7e45b615188398def349678"

/-- Effect of the repair UPDATE on one row: rows matching `site_hash IS NULL
OR site_hash = ''` receive the fallback hash, the rest are untouched. -/
def fixRow (r : DetectionRow) : DetectionRow :=
  if validHash r.site_hash then r else { r with site_hash := some correct_site_hash }

/-- The `UPDATE detections SET site_hash = %s WHERE site_hash IS NULL OR
site_hash = ''` statement of `fix_site_hash_in_lambda`. -/
def updateSiteHashes (rows : List DetectionRow) : List DetectionRow :=
  rows.map fixRow

/-- Model of `fix_site_hash_in_lambda`: acquire a connection (`False` if that
fails), count NULL/empty `site_hash` rows, and if any exist run the UPDATE
(`fixOk = false` models the statement raising, caught as `False`).  Returns
the success flag and the resulting table. -/
def fix_site_hash_in_lambda (env : Env) (rows : List DetectionRow) :
    Bool × List DetectionRow :=
  if get_db_connection env.fixConnOk env.tableExists then
    if (rows.filter (fun r => !validHash r.site_hash)).length > 0 then
      if env.fixOk then (true, updateSiteHashes rows) else (false, rows)
    else (true, rows)
  else (false, rows)

/-- Model of `get_fallback_stats(reason)`. -/
def get_fallback_stats (reason : String) : Stats :=
  { total_sites := 1
    total_detections := 0
    average_value_per_detection := 0
    most_active_company := "N/A"
    status := "fallback_" ++ reason }

/-- Rounding to the nearest integer with ties to even, as Python `round`
does on an exactly representable value. -/
def roundHalfEven (x : ℚ) : ℤ :=
  let f := ⌊x⌋
  let r := x - f
  if r < 1/2 then f
  else if 1/2 < r then f + 1
  else if Even f then f else f + 1

/-- Python `round(x, 2)`. -/
def round2 (x : ℚ) : ℚ :=
  (roundHalfEven (x * 100) : ℚ) / 100

/-- Rows selected by the 30-day headline statistics query: `site_hash IS NOT
NULL AND site_hash != '' AND detected_at > DATE_SUB(NOW(), INTERVAL 30
DAY)`. -/
def statsWindowRows (now : Int) (rows : List DetectionRow) : List DetectionRow :=
  rows.filter (fun r => validHash r.site_hash && decide (r.detected_at > now - 30 * 86400))

/-- Rows selected by the most-active-company query: valid hash, last 7 days,
`company IS NOT NULL`. -/
def activeWindowRows (now : Int) (rows : List DetectionRow) : List DetectionRow :=
  rows.filter (fun r =>
    validHash r.site_hash && decide (r.detected_at > now - 7 * 86400) && r.company.isSome)

/-- The `GROUP BY company ORDER BY count DESC LIMIT 1` query for the most
active company; `'N/A'` when the result set is empty.  MySQL leaves the order
of equal counts unspecified; the model keeps first-occurrence order among
ties (a stable sort). -/
def mostActiveCompany (now : Int) (rows : List DetectionRow) : String :=
  let sel := activeWindowRows now rows
  let groups := ((sel.map (fun r => r.company)).dedup).map
    (fun c => (c, (sel.filter (fun r => r.company == c)).length))
  match (List.insertionSort (fun a b : Option String × Nat => b.2 ≤ a.2) groups).head? with
  | some g => g.1.getD "N/A"
  | none => "N/A"

/-- The headline statistics: `COUNT(DISTINCT site_hash)`, `COUNT(*)`,
`AVG(estimated_value)` over `statsWindowRows` (SQL `AVG` of an empty set is
NULL, which the source coerces to 0), the most-active company, and the given
status tag. -/
def liveStats (status : String) (now : Int) (rows : List DetectionRow) : Stats :=
  let sel := statsWindowRows now rows
  { total_sites := ((sel.map (fun r => r.site_hash)).dedup).length
    total_detections := sel.length
    average_value_per_detection :=
      round2 (if sel.length = 0 then 0 else (sel.map (fun r => r.estimated_value)).sum / sel.length)
    most_active_company := mostActiveCompany now rows
    status := status }

/-- Model of `get_market_intelligence` up to the point where the stats dict
is built: returns the stats payload and the possibly repaired detections
table.  Mirrors the source's branch structure: connection check, `SHOW
TABLES` check, valid/invalid `site_hash` counts, the self-heal path
(`fix_site_hash_in_lambda`, reconnection, re-count, re-aggregate), and the
fallback tags for each failure. -/
def marketIntelligenceStats (env : Env) (db : DB) : Stats × List DetectionRow :=
  if get_db_connection env.dbReachable env.tableExists then
    if !env.opOk then (get_fallback_stats "database_operation_error", db.detections)
    else if !env.tableExists then (get_fallback_stats "no_detections_table", db.detections)
    else
      let validCount := (db.detections.filter (fun r => validHash r.site_hash)).length
      let invalidCount := (db.detections.filter (fun r => !validHash r.site_hash)).length
      if validCount == 0 && invalidCount > 0 then
        let fixRes := fix_site_hash_in_lambda env db.detections
        if fixRes.1 then
          if get_db_connection env.reconnectOk env.tableExists then
            let fixedCount := (fixRes.2.filter (fun r => validHash r.site_hash)).length
            if fixedCount > 0 then
              (liveStats "live_data_fixed" env.now fixRes.2, fixRes.2)
            else (get_fallback_stats "fix_failed", fixRes.2)
          else (get_fallback_stats "reconnection_failed", fixRes.2)
        else (get_fallback_stats "fix_failed", fixRes.2)
      else (liveStats "live_data" env.now db.detections, db.detections)
  else (get_fallback_stats "no_database_connection", db.detections)

/-- Model of `get_market_intelligence`'s return value: always wraps the stats
payload in a 200 response. -/
def get_market_intelligence (env : Env) (db : DB) : HttpResponse :=
  { statusCode := 200, body := RespBody.statsBody (marketIntelligenceStats env db).1 }

/-- The `except` clause of `get_market_intelligence` (reachable only from a
failure outside the inner try): a 500 whose `error` field embeds the raw
exception text. -/
def marketIntelligenceCatch (excText : String) : HttpResponse :=
  { statusCode := 500
    body := RespBody.errorBody ("Market intelligence error: " ++ excText) none }

/-- The exception boundary of `api_handler`: a handler outcome that is a
Python exception (modelled as `Except.error` carrying `str(e)`) is converted
into a 500 whose body is `{'error': 'Internal server error', 'details':
str(e)}`. -/
def api_handler (outcome : Except String HttpResponse) : HttpResponse :=
  match outcome with
  | Except.ok r => r
  | Except.error e =>
      { statusCode := 500
        body := RespBody.errorBody "Internal server error" (some e) }

/-- Model of `store_detection`: a failed connection yields `None`; otherwise
the INSERT runs inside a `try` block, so a missing mandatory key (Python
`KeyError`) or a failing statement (`insertOk = false`) is caught and yields
`None`.  On success the row is appended with the source's defaults for the
optional fields and `lastrowid` is modelled as the new row count. -/
def store_detection (env : Env) (db : DB) (data : DetectionData) :
    Option Nat × DB :=
  if get_db_connection env.dbReachable env.tableExists then
    match data.site_hash, data.company, data.content_type,
        data.estimated_value, data.detected_at with
    | some sh, some co, some ct, some ev, some da =>
        if env.insertOk then
          let row : DetectionRow :=
            { site_hash := some sh
              site_category := data.site_category.getD "blog"
              site_region := data.site_region.getD "US"
              company := some co
              bot_type := data.bot_type.getD "Unknown"
              content_type := ct
              content_quality := data.content_quality.getD 50
              estimated_value := ev
              risk_level := data.risk_level.getD "medium"
              commercial_risk := data.commercial_risk.getD false
              detected_at := da
              created_at := env.now }
          (some (db.detections.length + 1),
           { db with detections := db.detections ++ [row] })
        else (none, db)
    | _, _, _, _, _ => (none, db)
  else (none, db)

/-- The required-field loop of `handle_detection_report`: returns the first
member of `['site_hash', 'company', 'content_type', 'estimated_value',
'detected_at']` absent from the parsed body. -/
def firstMissingField (d : DetectionData) : Option String :=
  if d.site_hash.isNone then some "site_hash"
  else if d.company.isNone then some "company"
  else if d.content_type.isNone then some "content_type"
  else if d.estimated_value.isNone then some "estimated_value"
  else if d.detected_at.isNone then some "detected_at"
  else none

/-- Outcome of `handle_detection_report`: the response, the resulting
database, and whether `store_detection` was invoked at all. -/
structure DetectionOutcome where
  resp : HttpResponse
  db : DB
  insertAttempted : Bool
  deriving DecidableEq

/-- Model of `handle_detection_report`: API-key check (401), JSON parse
(`none` body means `json.loads` raised: 400 Invalid JSON), required-field
loop (400 naming the first missing field), then `store_detection`, whose
result — possibly `None` — is placed verbatim in a 200 success body. -/
def handle_detection_report (env : Env) (db : DB)
    (headers : List (String × String)) (body : Option DetectionData) :
    DetectionOutcome :=
  if !validate_api_key (headerGet headers "x-api-key") then
    { resp := { statusCode := 401, body := RespBody.errorBody "Invalid API key" none }
      db := db, insertAttempted := false }
  else
    match body with
    | none =>
        { resp := { statusCode := 400, body := RespBody.errorBody "Invalid JSON" none }
          db := db, insertAttempted := false }
    | some data =>
        match firstMissingField data with
        | some f =>
            { resp := { statusCode := 400
                        body := RespBody.errorBody ("Missing required field: " ++ f) none }
              db := db, insertAttempted := false }
        | none =>
            let res := store_detection env db data
            { resp := { statusCode := 200, body := RespBody.detectionBody true res.1 }
              db := res.2, insertAttempted := true }

/-- Modelled from the spec: the `api_registrations` table schema is not in
the repository (no CREATE TABLE statement exists in any source file), and the
INSERT in `handle_registration` does not list `last_seen`, so a fresh row's
`last_seen` is the schema's column default.  The spec's registration
idempotence property ("after N calls ... `last_seen` ... equal the last
call's values") fixes that default to the registration time. -/
def initialLastSeen (now : Int) : Int := now

/-- The `ON DUPLICATE KEY UPDATE last_seen = NOW(), plugin_version = %s`
clause: only these two columns of the existing row change. -/
def updRegRow (r : RegistrationRow) (c : RegCall) : RegistrationRow :=
  { r with last_seen := c.now, plugin_version := c.data.plugin_version.getD "" }

/-- The row inserted by a fresh registration, with the source's
`data.get(...)` defaults and `registered_at` defaulting to `NOW()`. -/
def freshRegRow (c : RegCall) : RegistrationRow :=
  { api_key := c.data.api_key
    site_hash := c.data.site_hash
    site_url_hash := c.data.site_url_hash.getD ""
    wordpress_version := c.data.wordpress_version.getD ""
    plugin_version := c.data.plugin_version.getD ""
    registered_at := c.data.registered_at.getD c.now
    last_seen := initialLastSeen c.now }

/-- The `INSERT ... ON DUPLICATE KEY UPDATE last_seen = NOW(),
plugin_version = %s` statement of `handle_registration`: if a row with the
same `api_key` exists it is updated in place (only `last_seen` and
`plugin_version`), otherwise a new row is inserted. -/
def regUpsert (rows : List RegistrationRow) (c : RegCall) : List RegistrationRow :=
  if rows.any (fun r => r.api_key == c.data.api_key) then
    rows.map (fun r => if r.api_key == c.data.api_key then updRegRow r c else r)
  else
    rows ++ [freshRegRow c]

/-- Model of `handle_registration`: a body that fails to parse or lacks
`api_key`/`site_hash` raises and is caught as 400; a failed connection is
500; a raising upsert statement on an acquired connection (`insertOk =
false`) is caught by the same handler and is also a 400 leaving the table
unchanged; otherwise the upsert runs and a 200 success body is returned. -/
def handle_registration (env : Env) (db : DB) (body : Option RegData) :
    HttpResponse × DB :=
  match body with
  | none =>
      ({ statusCode := 400, body := RespBody.errorBody "Registration failed" none }, db)
  | some data =>
      if get_db_connection env.dbReachable env.tableExists then
        if env.insertOk then
          ({ statusCode := 200, body := RespBody.registerBody true true },
           { db with registrations := regUpsert db.registrations { data := data, now := env.now } })
        else
          ({ statusCode := 400, body := RespBody.errorBody "Registration failed" none }, db)
      else
        ({ statusCode := 500, body := RespBody.errorBody "Database unavailable" none }, db)

/-- Rows selected by the insights query: `site_hash = %s AND detected_at >
DATE_SUB(NOW(), INTERVAL 30 DAY)`. -/
def insightRows (now : Int) (h : String) (rows : List DetectionRow) : List DetectionRow :=
  rows.filter (fun r => r.site_hash == some h && decide (r.detected_at > now - 30 * 86400))

/-- One group of the insights `GROUP BY company` aggregation: count, average
and sum of `estimated_value` over the rows of that company. -/
def companyAgg (rows : List DetectionRow) (c : Option String) : CompanyAgg :=
  let g := rows.filter (fun r => r.company == c)
  { company := c
    detections := g.length
    avg_value := (g.map (fun r => r.estimated_value)).sum / (g.length : ℚ)
    total_value := (g.map (fun r => r.estimated_value)).sum }

/-- The ordering used by `ORDER BY total_value DESC`. -/
def byTotalDesc (a b : CompanyAgg) : Prop := b.total_value ≤ a.total_value

instance : DecidableRel byTotalDesc := fun a b => by
  unfold byTotalDesc; infer_instance

instance : IsTotal CompanyAgg byTotalDesc :=
  ⟨fun a b => le_total b.total_value a.total_value⟩

instance : IsTrans CompanyAgg byTotalDesc :=
  ⟨fun _ _ _ hab hbc => le_trans hbc hab⟩

/-- The insights `GROUP BY company ORDER BY total_value DESC` result: one
aggregate per distinct company of the selected rows, sorted by total value
descending (MySQL leaves the order of ties unspecified; the model keeps
first-occurrence order among ties). -/
def companyBreakdown (rows : List DetectionRow) : List CompanyAgg :=
  List.insertionSort byTotalDesc
    (((rows.map (fun r => r.company)).dedup).map (companyAgg rows))

/-- Model of `get_site_insights`: API-key check (401), connection check (500
Database unavailable), then the grouped query (`opOk = false` models a
raising cursor operation, caught as a 500); on success a 200 carrying the
breakdown, which is empty when the site has no detections in the window. -/
def get_site_insights (env : Env) (db : DB) (site_hash : String)
    (headers : List (String × String)) : HttpResponse :=
  if !validate_api_key (headerGet headers "x-api-key") then
    { statusCode := 401, body := RespBody.errorBody "Invalid API key" none }
  else if !get_db_connection env.dbReachable env.tableExists then
    { statusCode := 500, body := RespBody.errorBody "Database unavailable" none }
  else if !env.opOk then
    { statusCode := 500, body := RespBody.errorBody "Failed to get site insights" none }
  else
    { statusCode := 200
      body := RespBody.insightsBody site_hash
        (companyBreakdown (insightRows env.now site_hash db.detections)) }

/-! Concrete fixtures used by witnesses and counterexamples. -/

/-- An environment in which every runtime step succeeds. -/
def envAllOk : Env :=
  { dbReachable := true, tableExists := true, opOk := true, insertOk := true
    fixConnOk := true, fixOk := true, reconnectOk := true, now := 10000000 }

/-- An environment whose database server is unreachable. -/
def envNoDB : Env := { envAllOk with dbReachable := false }

/-- A reachable database in which the `detections` table does not exist. -/
def envNoTable : Env := { envAllOk with tableExists := false }

/-- An empty database. -/
def emptyDB : DB := { detections := [], registrations := [] }

/-- A detection row with the given hash, company, timestamp and value, and
the source's default values elsewhere. -/
def sampleRow (sh co : Option String) (da : Int) (ev : ℚ) : DetectionRow :=
  { site_hash := sh, site_category := "blog", site_region := "US", company := co
    bot_type := "Unknown", content_type := "article", content_quality := 50
    estimated_value := ev, risk_level := "medium", commercial_risk := false
    detected_at := da, created_at := 0 }

/-- A parsed detection body carrying all five required fields. -/
def fullDetectionData : DetectionData :=
  { site_hash := some "abc123hashvalue", company := some "OpenAI"
    content_type := some "article", estimated_value := some 25
    detected_at := some 9999999, site_category := none, site_region := none
    bot_type := none, content_quality := none, risk_level := none
    commercial_risk := none }

/-- Request headers carrying a valid (length ≥ 10) API key. -/
def validHeaders : List (String × String) := [("x-api-key", "plontis-key-123456")]

/-- Request headers carrying a 5-character API key. -/
def shortHeaders : List (String × String) := [("x-api-key", "short")]

/-- C1 (code bug): for a request that passes API-key and required-field
validation but whose storage insert fails (here: the store is unreachable, so
`store_detection` returns `None`), `handle_detection_report` does NOT map the
null identifier to a 500: it returns a 200 success body whose `detection_id`
is null, contradicting the claim and the spec's write-path error policy. -/
theorem detection_store_failure_returns_success_with_null_id :
    (handle_detection_report envNoDB emptyDB validHeaders (some fullDetectionData)).resp =
      { statusCode := 200, body := RespBody.detectionBody true none } := by
  rfl

/-- C2 counterexample: a handler that raises with message `"boom"` produces a
500 whose body carries the raw exception text in its `details` field —
refuting the claim that the body never includes internal exception text. -/
theorem api_handler_leaks_exception_text :
    (api_handler (Except.error "boom")).statusCode = 500 ∧
    (api_handler (Except.error "boom")).body =
      RespBody.errorBody "Internal server error" (some "boom") :=
  ⟨rfl, rfl⟩

/-- C2 (amended): every uncaught handler exception is converted to a 500
whose body is the fixed generic message `'Internal server error'` together
with a `details` field holding the raw exception text; the local
market-intelligence handler likewise embeds the exception text in its
`error` message. -/
theorem api_handler_500_generic_message_with_details (e : String) :
    api_handler (Except.error e) =
      { statusCode := 500
        body := RespBody.errorBody "Internal server error" (some e) } ∧
    marketIntelligenceCatch e =
      { statusCode := 500
        body := RespBody.errorBody ("Market intelligence error: " ++ e) none } :=
  ⟨rfl, rfl⟩

/-- The fallback hash is a non-empty string, so a repaired row satisfies the
valid-hash predicate. -/
theorem validHash_correct_site_hash : validHash (some correct_site_hash) = true := by
  decide

/-- Repairing a row twice equals repairing it once. -/
theorem fixRow_fixRow (r : DetectionRow) : fixRow (fixRow r) = fixRow r := by
  by_cases h : validHash r.site_hash = true
  · simp [fixRow, h]
  · have h' : validHash r.site_hash = false := by simpa using h
    simp [fixRow, h', validHash_correct_site_hash]

/-- A detection row from before the `site_hash` column was populated: NULL
hash and an old timestamp. -/
def oldInvalidRow : DetectionRow := sampleRow none (some "OpenAI") 0 10

/-- A detection row whose `site_hash` is already valid. -/
def validHashRow : DetectionRow := sampleRow (some "abc123hashvalue") (some "OpenAI") 9999000 10

/-- C4: the repair UPDATE is idempotent — on a table with no NULL/empty
`site_hash` it changes no row, running it twice equals running it once, and
every previously NULL/empty row ends up holding the single well-known
fallback hash. -/
theorem repair_update_idempotent :
    (∀ rows : List DetectionRow,
      (∀ r ∈ rows, validHash r.site_hash = true) → updateSiteHashes rows = rows) ∧
    (∀ rows : List DetectionRow,
      updateSiteHashes (updateSiteHashes rows) = updateSiteHashes rows) ∧
    (∀ rows : List DetectionRow, ∀ r ∈ rows, validHash r.site_hash = false →
      ({ r with site_hash := some correct_site_hash } : DetectionRow) ∈ updateSiteHashes rows) := by
  refine ⟨?_, ?_, ?_⟩
  · intro rows h
    induction rows with
    | nil => rfl
    | cons a l ih =>
        have ha : fixRow a = a := by
          simp [fixRow, h a (List.mem_cons_self a l)]
        have hl := ih (fun r hr => h r (List.mem_cons_of_mem a hr))
        simp only [updateSiteHashes, List.map_cons] at hl ⊢
        rw [ha, hl]
  · intro rows
    induction rows with
    | nil => rfl
    | cons a l ih =>
        simp only [updateSiteHashes, List.map_cons, List.map_map] at ih ⊢
        rw [fixRow_fixRow, ih]
  · intro rows r hr h
    have hfix : fixRow r = { r with site_hash := some correct_site_hash } := by
      simp [fixRow, h]
    rw [← hfix]
    exact List.mem_map_of_mem fixRow hr

/-- C4 witness: a table whose single row already has a valid hash is left
unchanged, and a NULL-hash row receives the fallback hash. -/
theorem repair_update_idempotent_witness :
    updateSiteHashes [validHashRow] = [validHashRow] ∧
    ({ oldInvalidRow with site_hash := some correct_site_hash } : DetectionRow) ∈
      updateSiteHashes [oldInvalidRow] :=
  ⟨repair_update_idempotent.1 [validHashRow] (by decide),
   repair_update_idempotent.2.2 [oldInvalidRow] oldInvalidRow (by decide) (by decide)⟩

/-- C6: an `x-api-key` value shorter than 10 characters (in particular empty
or missing) yields 401 on both the detection and insights routes, and every
key of length at least 10 passes `validate_api_key`, so that check alone
never rejects it. -/
theorem api_key_length_policy (env : Env) (db : DB) (headers : List (String × String))
    (body : Option DetectionData) (site_hash : String) :
    ((headerGet headers "x-api-key").length < 10 →
      (handle_detection_report env db headers body).resp.statusCode = 401 ∧
      (get_site_insights env db site_hash headers).statusCode = 401) ∧
    (10 ≤ (headerGet headers "x-api-key").length →
      validate_api_key (headerGet headers "x-api-key") = true) := by
  constructor
  · intro h
    have hv : validate_api_key (headerGet headers "x-api-key") = false := by
      simp [validate_api_key, h]
    constructor
    · simp [handle_detection_report, hv]
    · simp [get_site_insights, hv]
  · intro h
    have hne : (headerGet headers "x-api-key" == "") = false := by
      cases hb : headerGet headers "x-api-key" == ""
      · rfl
      · exfalso
        have he := eq_of_beq hb
        rw [he] at h
        exact absurd h (by decide)
    have h2 : ¬((headerGet headers "x-api-key").length < 10) := Nat.not_lt.mpr h
    simp [validate_api_key, hne, h2]

/-- C6 witness: a 5-character key is rejected with 401 on both routes and an
18-character key passes the validation check. -/
theorem api_key_length_policy_witness :
    ((handle_detection_report envAllOk emptyDB shortHeaders none).resp.statusCode = 401 ∧
      (get_site_insights envAllOk emptyDB "h1" shortHeaders).statusCode = 401) ∧
    validate_api_key (headerGet validHeaders "x-api-key") = true :=
  ⟨(api_key_length_policy envAllOk emptyDB shortHeaders none "h1").1 (by decide),
   (api_key_length_policy envAllOk emptyDB validHeaders none "h1").2 (by decide)⟩

/-- C5: while the store is unreachable or a database operation fails,
market intelligence still answers 200 and the payload's status tag starts
with `"fallback_"` (hence with `"fallback_"` or `"sample_data_"`); such a
request never produces a 500. -/
theorem market_intelligence_fallback_on_failure (env : Env) (db : DB)
    (h : get_db_connection env.dbReachable env.tableExists = false ∨ env.opOk = false) :
    (get_market_intelligence env db).statusCode = 200 ∧
    ∃ s reason, (get_market_intelligence env db).body = RespBody.statsBody s ∧
      (s.status = "fallback_" ++ reason ∨ s.status = "sample_data_" ++ reason) := by
  refine ⟨rfl, (marketIntelligenceStats env db).1, ?_⟩
  rcases h with h | h
  · refine ⟨"no_database_connection", rfl, Or.inl ?_⟩
    simp [marketIntelligenceStats, h, get_fallback_stats]
  · cases hc : get_db_connection env.dbReachable env.tableExists
    · refine ⟨"no_database_connection", rfl, Or.inl ?_⟩
      simp [marketIntelligenceStats, hc, get_fallback_stats]
    · refine ⟨"database_operation_error", rfl, Or.inl ?_⟩
      simp [marketIntelligenceStats, hc, h, get_fallback_stats]

/-- C5 witness: with the server unreachable the endpoint answers 200 with a
`fallback_`-tagged payload. -/
theorem market_intelligence_fallback_on_failure_witness :
    (get_market_intelligence envNoDB emptyDB).statusCode = 200 ∧
    ∃ s reason, (get_market_intelligence envNoDB emptyDB).body = RespBody.statsBody s ∧
      (s.status = "fallback_" ++ reason ∨ s.status = "sample_data_" ++ reason) :=
  market_intelligence_fallback_on_failure envNoDB emptyDB (Or.inl rfl)

/-- C10: the probe query inside `get_db_connection` makes a missing
`detections` table indistinguishable from an unreachable server: the
`no_detections_table` fallback branch is unreachable for every environment
and database state, and a reachable database lacking the table surfaces as
`fallback_no_database_connection`. -/
theorem missing_table_surfaces_as_no_connection (env : Env) (db : DB) :
    (marketIntelligenceStats env db).1.status ≠ "fallback_no_detections_table" ∧
    (env.dbReachable = true → env.tableExists = false →
      (marketIntelligenceStats env db).1.status = "fallback_no_database_connection") := by
  constructor
  · unfold marketIntelligenceStats
    repeat' split
    all_goals simp_all [get_db_connection, get_fallback_stats, liveStats]
    all_goals repeat' split
    all_goals simp [get_fallback_stats, liveStats]
  · intro h1 h2
    simp [marketIntelligenceStats, get_db_connection, h1, h2, get_fallback_stats]

/-- C10 witness: a reachable server without the `detections` table yields the
`fallback_no_database_connection` tag, not `fallback_no_detections_table`. -/
theorem missing_table_surfaces_as_no_connection_witness :
    (marketIntelligenceStats envNoTable emptyDB).1.status ≠ "fallback_no_detections_table" ∧
    (marketIntelligenceStats envNoTable emptyDB).1.status = "fallback_no_database_connection" :=
  ⟨(missing_table_surfaces_as_no_connection envNoTable emptyDB).1,
   (missing_table_surfaces_as_no_connection envNoTable emptyDB).2 rfl rfl⟩

/-- The field named `f` is one of the five required detection fields and is
absent from the parsed body `d`. -/
def requiredFieldMissing (d : DetectionData) (f : String) : Prop :=
  (f = "site_hash" ∧ d.site_hash = none) ∨
  (f = "company" ∧ d.company = none) ∨
  (f = "content_type" ∧ d.content_type = none) ∨
  (f = "estimated_value" ∧ d.estimated_value = none) ∨
  (f = "detected_at" ∧ d.detected_at = none)

/-- The required-field loop only ever names a field that is actually
absent. -/
theorem firstMissingField_missing (d : DetectionData) (f : String)
    (h : firstMissingField d = some f) : requiredFieldMissing d f := by
  unfold firstMissingField at h
  split_ifs at h with h1 h2 h3 h4 h5
  · exact Or.inl ⟨(Option.some.inj h).symm, Option.isNone_iff_eq_none.mp h1⟩
  · exact Or.inr (Or.inl ⟨(Option.some.inj h).symm, Option.isNone_iff_eq_none.mp h2⟩)
  · exact Or.inr (Or.inr (Or.inl ⟨(Option.some.inj h).symm, Option.isNone_iff_eq_none.mp h3⟩))
  · exact Or.inr (Or.inr (Or.inr (Or.inl ⟨(Option.some.inj h).symm,
      Option.isNone_iff_eq_none.mp h4⟩)))
  · exact Or.inr (Or.inr (Or.inr (Or.inr ⟨(Option.some.inj h).symm,
      Option.isNone_iff_eq_none.mp h5⟩)))

/-- When the required-field loop finds nothing missing, all five required
fields are present. -/
theorem firstMissingField_none (d : DetectionData) (h : firstMissingField d = none) :
    d.site_hash ≠ none ∧ d.company ≠ none ∧ d.content_type ≠ none ∧
    d.estimated_value ≠ none ∧ d.detected_at ≠ none := by
  unfold firstMissingField at h
  split_ifs at h with h1 h2 h3 h4 h5
  exact ⟨fun hc => h1 (by simp [hc]), fun hc => h2 (by simp [hc]),
    fun hc => h3 (by simp [hc]), fun hc => h4 (by simp [hc]),
    fun hc => h5 (by simp [hc])⟩

/-- C7: a well-formed detection body submitted with a valid API key but
lacking at least one of the five required fields gets a 400 naming a missing
field, the database is unchanged, and `store_detection` is never invoked. -/
theorem detection_missing_field_400 (env : Env) (db : DB)
    (headers : List (String × String)) (data : DetectionData)
    (hkey : validate_api_key (headerGet headers "x-api-key") = true)
    (hmiss : data.site_hash = none ∨ data.company = none ∨ data.content_type = none ∨
      data.estimated_value = none ∨ data.detected_at = none) :
    ∃ f, requiredFieldMissing data f ∧
      handle_detection_report env db headers (some data) =
        { resp := { statusCode := 400
                    body := RespBody.errorBody ("Missing required field: " ++ f) none }
          db := db, insertAttempted := false } := by
  cases hf : firstMissingField data with
  | none =>
      exfalso
      have hall := firstMissingField_none data hf
      rcases hmiss with h | h | h | h | h <;> simp_all
  | some f =>
      refine ⟨f, firstMissingField_missing data f hf, ?_⟩
      simp [handle_detection_report, hkey, hf]

/-- A detection body with every required field except `company`. -/
def missingCompanyData : DetectionData := { fullDetectionData with company := none }

/-- C7 witness: a body lacking `company` yields a 400 naming a missing field
with no insert attempted. -/
theorem detection_missing_field_400_witness :
    ∃ f, requiredFieldMissing missingCompanyData f ∧
      handle_detection_report envAllOk emptyDB validHeaders (some missingCompanyData) =
        { resp := { statusCode := 400
                    body := RespBody.errorBody ("Missing required field: " ++ f) none }
          db := emptyDB, insertAttempted := false } :=
  detection_missing_field_400 envAllOk emptyDB validHeaders missingCompanyData
    (by decide) (Or.inr (Or.inl rfl))

/-- A database whose only detection row has a NULL `site_hash` and a
timestamp outside the 30-day window. -/
def staleNullHashDB : DB := { detections := [oldInvalidRow], registrations := [] }

/-- C3 counterexample: with a single NULL-hash row older than the 30-day
window, the repair path runs and the response is tagged `live_data_fixed`,
but `total_sites` is 0 — the post-repair re-count is not window-scoped while
the aggregation is, refuting the claimed `total_sites ≥ 1`. -/
theorem self_heal_stale_row_total_sites_zero :
    (marketIntelligenceStats envAllOk staleNullHashDB).1.status = "live_data_fixed" ∧
    (marketIntelligenceStats envAllOk staleNullHashDB).1.total_sites = 0 := by
  constructor <;> rfl

/-- C3 (amended): when every detection row has a NULL/empty `site_hash` and
at least one row exists, a market-intelligence request under a healthy
environment triggers the repair, every row of the resulting table holds the
well-known fallback hash, and the response is tagged `live_data_fixed`;
`total_sites ≥ 1` holds provided some row's `detected_at` lies inside the
trailing 30-day window.  If the repair fails, leaving every `site_hash`
NULL/empty, the response is instead the fallback payload tagged
`fix_failed`. -/
theorem market_intelligence_self_heal (env : Env) (db : DB)
    (hne : db.detections ≠ [])
    (hall : ∀ r ∈ db.detections, validHash r.site_hash = false)
    (hconn : env.dbReachable = true) (htab : env.tableExists = true)
    (hop : env.opOk = true) (hfc : env.fixConnOk = true) :
    (env.fixOk = true → env.reconnectOk = true →
      (marketIntelligenceStats env db).1.status = "live_data_fixed" ∧
      (∀ r ∈ (marketIntelligenceStats env db).2, r.site_hash = some correct_site_hash) ∧
      ((∃ r ∈ db.detections, r.detected_at > env.now - 30 * 86400) →
        1 ≤ (marketIntelligenceStats env db).1.total_sites)) ∧
    (env.fixOk = false →
      (marketIntelligenceStats env db).1.status = "fallback_fix_failed" ∧
      ∀ r ∈ (marketIntelligenceStats env db).2, validHash r.site_hash = false) := by
  have hvc : (db.detections.filter (fun r => validHash r.site_hash)).length = 0 := by
    rw [List.length_eq_zero]
    exact List.filter_eq_nil_iff.mpr (fun a ha => by simp [hall a ha])
  have hic : 0 < (db.detections.filter (fun r => !validHash r.site_hash)).length := by
    rw [List.filter_eq_self.mpr (fun a ha => by simp [hall a ha])]
    exact List.length_pos.mpr hne
  have hupd : ∀ r ∈ updateSiteHashes db.detections, r.site_hash = some correct_site_hash := by
    intro r hr
    rcases List.mem_map.mp hr with ⟨a, ha, rfl⟩
    simp [fixRow, hall a ha]
  constructor
  · intro hfixOk hrec
    have hfix : fix_site_hash_in_lambda env db.detections =
        (true, updateSiteHashes db.detections) := by
      simp [fix_site_hash_in_lambda, get_db_connection, hfc, htab, hfixOk, hic]
    have hfixedCount :
        0 < ((updateSiteHashes db.detections).filter (fun r => validHash r.site_hash)).length := by
      rw [List.filter_eq_self.mpr
        (fun a ha => by rw [hupd a ha]; exact validHash_correct_site_hash)]
      rw [updateSiteHashes, List.length_map]
      exact List.length_pos.mpr hne
    have hmain : marketIntelligenceStats env db =
        (liveStats "live_data_fixed" env.now (updateSiteHashes db.detections),
         updateSiteHashes db.detections) := by
      simp [marketIntelligenceStats, get_db_connection, hconn, htab, hop, hvc, hic,
        hfix, hrec, hfixedCount]
    refine ⟨by rw [hmain]; rfl, by rw [hmain]; exact hupd, ?_⟩
    rintro ⟨r, hr, hwin⟩
    have hfr1 : (fixRow r).site_hash = some correct_site_hash := by
      simp [fixRow, hall r hr]
    have hfr2 : (fixRow r).detected_at = r.detected_at := by
      simp [fixRow, hall r hr]
    have hmem : fixRow r ∈ statsWindowRows env.now (updateSiteHashes db.detections) := by
      refine List.mem_filter.mpr ⟨List.mem_map_of_mem fixRow hr, ?_⟩
      simp [hfr1, hfr2, validHash_correct_site_hash]
      omega
    have hsel : statsWindowRows env.now (updateSiteHashes db.detections) ≠ [] := by
      intro hEq
      rw [hEq] at hmem
      exact absurd hmem (List.not_mem_nil _)
    rw [hmain]
    simp only [liveStats]
    have hmapne :
        (statsWindowRows env.now (updateSiteHashes db.detections)).map
          (fun r => r.site_hash) ≠ [] := by
      simpa [List.map_eq_nil_iff] using hsel
    have hded := (List.dedup_eq_nil _).not.mpr hmapne
    exact Nat.one_le_iff_ne_zero.mpr (fun hz => hded (List.length_eq_zero.mp hz))
  · intro hfixBad
    have hfix : fix_site_hash_in_lambda env db.detections = (false, db.detections) := by
      simp [fix_site_hash_in_lambda, get_db_connection, hfc, htab, hfixBad, hic]
    have hmain : marketIntelligenceStats env db =
        (get_fallback_stats "fix_failed", db.detections) := by
      simp [marketIntelligenceStats, get_db_connection, hconn, htab, hop, hvc, hic, hfix]
    exact ⟨by rw [hmain]; rfl, by rw [hmain]; exact hall⟩

/-- A database whose two detection rows both lack a `site_hash`, one of them
inside the 30-day window. -/
def nullHashRecentDB : DB :=
  { detections := [oldInvalidRow, sampleRow none (some "Anthropic") 9999000 12]
    registrations := [] }

/-- C3 witness: on a table of NULL-hash rows with one recent row, the
healthy self-heal path answers `live_data_fixed` with `total_sites ≥ 1`,
repairing every row, and a failing repair yields `fallback_fix_failed`. -/
theorem market_intelligence_self_heal_witness :
    ((marketIntelligenceStats envAllOk nullHashRecentDB).1.status = "live_data_fixed" ∧
      (∀ r ∈ (marketIntelligenceStats envAllOk nullHashRecentDB).2,
        r.site_hash = some correct_site_hash) ∧
      1 ≤ (marketIntelligenceStats envAllOk nullHashRecentDB).1.total_sites) ∧
    (marketIntelligenceStats { envAllOk with fixOk := false } nullHashRecentDB).1.status =
      "fallback_fix_failed" := by
  have h1 := market_intelligence_self_heal envAllOk nullHashRecentDB
    (by decide) (by decide) rfl rfl rfl rfl
  have h2 := market_intelligence_self_heal { envAllOk with fixOk := false } nullHashRecentDB
    (by decide) (by decide) rfl rfl rfl rfl
  obtain ⟨hs, hu, ht⟩ := h1.1 rfl rfl
  exact ⟨⟨hs, hu, ht ⟨sampleRow none (some "Anthropic") 9999000 12, by decide, by decide⟩⟩,
    (h2.2 rfl).1⟩

/-- C9: with a valid API key and a reachable store, `get_site_insights`
answers 200 carrying the per-company breakdown of the site's trailing-30-day
detections, every entry of the breakdown holds that company's count, average
value and total value, the list is ordered by total value descending, and a
site with no detections yields an empty breakdown, not an error. -/
theorem site_insights_grouped_sorted (env : Env) (db : DB) (site_hash : String)
    (headers : List (String × String))
    (hkey : validate_api_key (headerGet headers "x-api-key") = true)
    (hconn : env.dbReachable = true) (htab : env.tableExists = true)
    (hop : env.opOk = true) :
    (get_site_insights env db site_hash headers).statusCode = 200 ∧
    (get_site_insights env db site_hash headers).body =
      RespBody.insightsBody site_hash
        (companyBreakdown (insightRows env.now site_hash db.detections)) ∧
    List.Sorted byTotalDesc (companyBreakdown (insightRows env.now site_hash db.detections)) ∧
    (insightRows env.now site_hash db.detections = [] →
      companyBreakdown (insightRows env.now site_hash db.detections) = []) ∧
    (∀ e ∈ companyBreakdown (insightRows env.now site_hash db.detections),
      e = companyAgg (insightRows env.now site_hash db.detections) e.company) := by
  refine ⟨?_, ?_, ?_, ?_, ?_⟩
  · simp [get_site_insights, hkey, get_db_connection, hconn, htab, hop]
  · simp [get_site_insights, hkey, get_db_connection, hconn, htab, hop]
  · exact List.sorted_insertionSort byTotalDesc _
  · intro hEq
    simp [companyBreakdown, hEq]
  · intro e he
    have he' : e ∈ ((insightRows env.now site_hash db.detections).map
        (fun r => r.company)).dedup.map (companyAgg (insightRows env.now site_hash db.detections)) := by
      simpa [companyBreakdown] using he
    rcases List.mem_map.mp he' with ⟨c, _, rfl⟩
    rfl

/-- A database holding detections of two companies for one site inside the
30-day window. -/
def twoCompanyDB : DB :=
  { detections := [sampleRow (some "site-hash-1") (some "OpenAI") 9999000 10,
                   sampleRow (some "site-hash-1") (some "Anthropic") 9999000 30,
                   sampleRow (some "site-hash-1") (some "OpenAI") 9998000 14]
    registrations := [] }

/-- C9 witness: the insights response for a two-company site is a 200 whose
breakdown is sorted by total value and whose entries carry the per-company
aggregates. -/
theorem site_insights_grouped_sorted_witness :
    (get_site_insights envAllOk twoCompanyDB "site-hash-1" validHeaders).statusCode = 200 ∧
    (get_site_insights envAllOk twoCompanyDB "site-hash-1" validHeaders).body =
      RespBody.insightsBody "site-hash-1"
        (companyBreakdown (insightRows envAllOk.now "site-hash-1" twoCompanyDB.detections)) ∧
    List.Sorted byTotalDesc
      (companyBreakdown (insightRows envAllOk.now "site-hash-1" twoCompanyDB.detections)) ∧
    (insightRows envAllOk.now "site-hash-1" twoCompanyDB.detections = [] →
      companyBreakdown (insightRows envAllOk.now "site-hash-1" twoCompanyDB.detections) = []) ∧
    (∀ e ∈ companyBreakdown (insightRows envAllOk.now "site-hash-1" twoCompanyDB.detections),
      e = companyAgg (insightRows envAllOk.now "site-hash-1" twoCompanyDB.detections) e.company) :=
  site_insights_grouped_sorted envAllOk twoCompanyDB "site-hash-1" validHeaders
    (by decide) rfl rfl rfl

/-- The row for a key after a first registration followed by a (possibly
empty) sequence of re-registrations ending with `last`: identity fields and
`registered_at` from the first call, `plugin_version` and `last_seen` from
the last. -/
def finalRegRow (first last : RegCall) : RegistrationRow :=
  { api_key := first.data.api_key
    site_hash := first.data.site_hash
    site_url_hash := first.data.site_url_hash.getD ""
    wordpress_version := first.data.wordpress_version.getD ""
    plugin_version := last.data.plugin_version.getD ""
    registered_at := first.data.registered_at.getD first.now
    last_seen := last.now }

/-- Filtering commutes with a map that preserves the filter predicate. -/
theorem filter_map_pres (f : RegistrationRow → RegistrationRow)
    (p : RegistrationRow → Bool) (hpres : ∀ r, p (f r) = p r) :
    ∀ l : List RegistrationRow, (l.map f).filter p = (l.filter p).map f := by
  intro l
  induction l with
  | nil => rfl
  | cons a t ih => cases hp : p a <;> simp [List.filter_cons, hpres a, hp, ih]

/-- Upserting a fresh key appends exactly one matching row. -/
theorem regUpsert_insert (rows : List RegistrationRow) (c : RegCall)
    (h0 : ∀ r ∈ rows, r.api_key ≠ c.data.api_key) :
    (regUpsert rows c).filter (fun r => r.api_key == c.data.api_key) = [freshRegRow c] := by
  have hany : rows.any (fun r => r.api_key == c.data.api_key) = false := by
    rw [List.any_eq_false]
    intro r hr
    simp [h0 r hr]
  simp only [regUpsert, hany, Bool.false_eq_true, if_false, List.filter_append]
  rw [List.filter_eq_nil_iff.mpr (fun r hr => by simp [h0 r hr])]
  simp [freshRegRow]

/-- Upserting an existing key rewrites the single matching row in place. -/
theorem regUpsert_update (rows : List RegistrationRow) (c : RegCall)
    (rstar : RegistrationRow)
    (hf : rows.filter (fun r => r.api_key == c.data.api_key) = [rstar]) :
    (regUpsert rows c).filter (fun r => r.api_key == c.data.api_key) =
      [updRegRow rstar c] := by
  have hmem : rstar ∈ rows.filter (fun r => r.api_key == c.data.api_key) := by
    rw [hf]; exact List.mem_singleton.mpr rfl
  have hmem' := List.mem_filter.mp hmem
  have hany : rows.any (fun r => r.api_key == c.data.api_key) = true :=
    List.any_eq_true.mpr ⟨rstar, hmem'.1, hmem'.2⟩
  have hpres : ∀ r, ((if r.api_key == c.data.api_key then updRegRow r c else r).api_key ==
      c.data.api_key) = (r.api_key == c.data.api_key) := by
    intro r
    cases hr : r.api_key == c.data.api_key <;> simp [hr, updRegRow]
  simp only [regUpsert, hany, if_true]
  rw [filter_map_pres _ _ hpres, hf, List.map_cons, List.map_nil, if_pos hmem'.2]

/-- Re-registering twice keeps only the last call's update. -/
theorem updRegRow_updRegRow (r : RegistrationRow) (c c' : RegCall) :
    updRegRow (updRegRow r c) c' = updRegRow r c' := rfl

/-- Folding re-registrations over a row applies only the last one. -/
theorem foldl_updRegRow (cs : List RegCall) (lastc : RegCall)
    (h : cs.getLast? = some lastc) :
    ∀ r : RegistrationRow, cs.foldl updRegRow r = updRegRow r lastc := by
  induction cs with
  | nil => simp at h
  | cons c t ih =>
      intro r
      cases t with
      | nil =>
          have : c = lastc := by simpa using h
          simp [this]
      | cons b u =>
          have h' : (b :: u).getLast? = some lastc := by
            rw [List.getLast?_cons_cons] at h; exact h
          rw [List.foldl_cons, ih h' (updRegRow r c), updRegRow_updRegRow]

/-- Folding upserts of one key over a state holding a single matching row
keeps a single matching row, updated by the calls. -/
theorem regUpsert_fold (k : String) (cs : List RegCall) :
    ∀ (rows : List RegistrationRow) (rstar : RegistrationRow),
      (∀ c ∈ cs, c.data.api_key = k) →
      rows.filter (fun r => r.api_key == k) = [rstar] →
      (cs.foldl regUpsert rows).filter (fun r => r.api_key == k) =
        [cs.foldl updRegRow rstar] := by
  induction cs with
  | nil => intro rows rstar _ hf; simpa using hf
  | cons c t ih =>
      intro rows rstar hk hf
      have hck : c.data.api_key = k := hk c (List.mem_cons_self c t)
      have h1 : (regUpsert rows c).filter (fun r => r.api_key == k) = [updRegRow rstar c] := by
        rw [← hck] at hf ⊢
        exact regUpsert_update rows c rstar hf
      rw [List.foldl_cons, List.foldl_cons]
      exact ih (regUpsert rows c) (updRegRow rstar c)
        (fun x hx => hk x (List.mem_cons_of_mem c hx)) h1

/-- C8: for every environment whose store is reachable and whose upsert
statement succeeds, a registration call returns 200 and performs
`regUpsert`; and for every nonempty sequence of upserts with the same
`api_key` starting from a state without that key, exactly one row for the
key remains, whose identity fields and `registered_at` come from the first
call and whose `plugin_version` and `last_seen` come from the last call. -/
theorem registration_upsert_single_row (k : String) (calls : List RegCall)
    (rows0 : List RegistrationRow) (first last : RegCall)
    (hfirst : calls.head? = some first) (hlast : calls.getLast? = some last)
    (hk : ∀ c ∈ calls, c.data.api_key = k)
    (h0 : ∀ r ∈ rows0, r.api_key ≠ k) :
    (∀ (env : Env) (db : DB) (data : RegData),
      get_db_connection env.dbReachable env.tableExists = true →
      env.insertOk = true →
      handle_registration env db (some data) =
        ({ statusCode := 200, body := RespBody.registerBody true true },
         { db with registrations :=
            regUpsert db.registrations { data := data, now := env.now } })) ∧
    (calls.foldl regUpsert rows0).filter (fun r => r.api_key == k) =
      [finalRegRow first last] := by
  constructor
  · intro env db data hconn hins
    simp [handle_registration, hconn, hins]
  · cases calls with
    | nil => simp at hfirst
    | cons c t =>
        have hc : c = first := by simpa using hfirst
        subst hc
        have hck : c.data.api_key = k := hk c (List.mem_cons_self c t)
        have h1 : (regUpsert rows0 c).filter (fun r => r.api_key == k) = [freshRegRow c] := by
          rw [← hck]
          exact regUpsert_insert rows0 c (fun r hr => by rw [hck]; exact h0 r hr)
        cases t with
        | nil =>
            have hl : c = last := by simpa using hlast
            subst hl
            simpa using h1
        | cons b u =>
            have hlast' : (b :: u).getLast? = some last := by
              rw [List.getLast?_cons_cons] at hlast; exact hlast
            rw [List.foldl_cons]
            rw [regUpsert_fold k (b :: u) (regUpsert rows0 c) (freshRegRow c)
              (fun x hx => hk x (List.mem_cons_of_mem c hx)) h1]
            rw [foldl_updRegRow (b :: u) last hlast' (freshRegRow c)]
            rfl

/-- The parsed body of a first registration call. -/
def regDataA : RegData :=
  { api_key := "plontis-key-abc", site_hash := "site-hash-1", site_url_hash := none
    wordpress_version := some "6.4", plugin_version := some "1.0", registered_at := some 100 }

/-- A first registration call for the key `plontis-key-abc`. -/
def regCallA : RegCall := { data := regDataA, now := 100 }

/-- The parsed body of a re-registration of the same key with a new plugin
version and a different `site_hash`. -/
def regDataB : RegData :=
  { api_key := "plontis-key-abc", site_hash := "site-hash-2", site_url_hash := none
    wordpress_version := none, plugin_version := some "1.1", registered_at := none }

/-- The re-registration call. -/
def regCallB : RegCall := { data := regDataB, now := 200 }

/-- The database state produced by the first witness registration. -/
def regWitnessDB : DB :=
  { emptyDB with
    registrations := regUpsert emptyDB.registrations { data := regDataA, now := envAllOk.now } }

/-- C8 witness: a reachable-store registration returns 200 and upserts, and
after two calls with the same key exactly one row remains, keeping the first
call's `site_hash`/`registered_at` and taking the last call's
`plugin_version`/`last_seen`. -/
theorem registration_upsert_single_row_witness :
    handle_registration envAllOk emptyDB (some regDataA) =
      ({ statusCode := 200, body := RespBody.registerBody true true }, regWitnessDB) ∧
    ([regCallA, regCallB].foldl regUpsert []).filter
      (fun r => r.api_key == "plontis-key-abc") = [finalRegRow regCallA regCallB] :=
  ⟨(registration_upsert_single_row "plontis-key-abc" [regCallA, regCallB] []
      regCallA regCallB rfl rfl (by decide) (by decide)).1 envAllOk emptyDB regDataA rfl rfl,
   (registration_upsert_single_row "plontis-key-abc" [regCallA, regCallB] []
      regCallA regCallB rfl rfl (by decide) (by decide)).2⟩
